import Mathlib

/-!
Verification of the KMA Global contact-form backend (`src/main.py`).

Shallow embedding of the FastAPI application in `src/main.py`:
the `/test` diagnostic endpoint, the `POST /api/contact` submission
handler, and the `_send_confirmation_email` notifier.

External collaborators are modelled as oracle inputs:

* the pydantic `EmailStr` syntax check is an arbitrary predicate
  `ive : String → Bool` (the email-validator library is outside the repo);
* the outcome of `create_document` (from `database.py`, which is not part
  of the sources) is an `Except String String` value: a generated id, or
  the message of the exception it raised;
* the outcome of the SMTP session (connect / starttls / login / sendmail)
  is an `Except String Unit` value;
* environment variables are `Option String` (unset vs. set, possibly "").

Python-specific behaviours are embedded faithfully: `int()` parsing of
`SMTP_PORT` (which can raise), truthiness of `None`/`""`, string slicing
`s[:n]`, and `or`-defaulting.
-/

namespace KMA

/-- Python string slicing `s[:n]`: the first `n` characters. -/
def strSlice (s : String) (n : Nat) : String :=
  (s.toList.take n).asString

/-- Python truthiness of an optional string: `None` and `""` are falsy. -/
def truthy : Option String → Bool
  | none => false
  | some s => !s.isEmpty

/-- Digit run of a Python base-10 integer literal after its first digit:
single underscores are allowed between digits. -/
def pyDigits : List Char → Nat → Option Nat
  | [], acc => some acc
  | '_' :: c :: rest, acc =>
      if c.isDigit then pyDigits rest (acc * 10 + (c.toNat - '0'.toNat)) else none
  | c :: rest, acc =>
      if c.isDigit then pyDigits rest (acc * 10 + (c.toNat - '0'.toNat)) else none

/-- Unsigned part of Python `int(str)`: a non-empty digit sequence, with
single underscores allowed between digits. -/
def pyNat : List Char → Option Nat
  | [] => none
  | c :: rest => if c.isDigit then pyDigits rest (c.toNat - '0'.toNat) else none

/-- Python `int(str)` for base 10: optional surrounding whitespace, optional
sign, then a non-empty digit sequence; `none` models the `ValueError` raised
on any other input (e.g. `int("")` or `int("abc")`). -/
def pyInt (s : String) : Option Int :=
  let cs := (((s.toList.dropWhile Char.isWhitespace).reverse.dropWhile
      Char.isWhitespace)).reverse
  match cs with
  | '+' :: rest => (pyNat rest).map Int.ofNat
  | '-' :: rest => (pyNat rest).map (fun n => -(n : Int))
  | rest => (pyNat rest).map Int.ofNat

/-- The raw body of a `POST /api/contact` request: each field either absent
or present with a string value (optional fields default to `None`). -/
structure RawContact where
  name : Option String
  email : Option String
  phone : Option String
  business : Option String
  budget : Option String
  description : Option String
deriving DecidableEq, Repr

/-- The pydantic model `ContactSubmission` (src/main.py lines 21-27):
`name` 2-120 chars, `email` a valid address, `description` at least
10 chars; `phone`, `business`, `budget` optional. -/
structure ContactSubmission where
  name : String
  email : String
  phone : Option String
  business : Option String
  budget : Option String
  description : String
deriving DecidableEq, Repr

/-- One violated constraint reported by pydantic validation. -/
inductive Violation
  | nameMissing
  | nameTooShort
  | nameTooLong
  | emailMissing
  | emailInvalid
  | descriptionMissing
  | descriptionTooShort
deriving DecidableEq, Repr

/-- All constraint violations of a raw body against `ContactSubmission`
(pydantic reports every failing field): missing required field, `name`
length outside 2-120, invalid email per the oracle `ive`, `description`
shorter than 10. -/
def fieldViolations (ive : String → Bool) (raw : RawContact) : List Violation :=
  (match raw.name with
    | none => [.nameMissing]
    | some n =>
        (if n.length < 2 then [.nameTooShort] else [])
          ++ (if n.length > 120 then [.nameTooLong] else []))
  ++ (match raw.email with
    | none => [.emailMissing]
    | some e => if ive e then [] else [.emailInvalid])
  ++ (match raw.description with
    | none => [.descriptionMissing]
    | some d => if d.length < 10 then [.descriptionTooShort] else [])

/-- Pydantic validation of the request body, performed by FastAPI before
`submit_contact` runs: either a `ContactSubmission` or the list of
violations (surfaced as a 422 client error). -/
def validate (ive : String → Bool) (raw : RawContact) :
    Except (List Violation) ContactSubmission :=
  match fieldViolations ive raw, raw.name, raw.email, raw.description with
  | [], some n, some e, some d =>
      .ok { name := n, email := e, phone := raw.phone,
            business := raw.business, budget := raw.budget, description := d }
  | vs, _, _, _ => .error vs

/-- The notifier's result dict: `{sent: bool, reason?: str}`. -/
structure EmailResult where
  sent : Bool
  reason : Option String
deriving DecidableEq, Repr

/-- SMTP-related environment variables (each unset or a string). -/
structure SmtpEnv where
  SMTP_HOST : Option String
  SMTP_PORT : Option String
  SMTP_USER : Option String
  SMTP_PASS : Option String
  SMTP_FROM : Option String
deriving DecidableEq, Repr

/-- Computation `from_email = os.getenv("SMTP_FROM", user or "")` (line 100). -/
def fromEmail (env : SmtpEnv) : String :=
  env.SMTP_FROM.getD (if truthy env.SMTP_USER then env.SMTP_USER.getD "" else "")

/-- The guard on line 103: `host and user and password and from_email`. -/
def smtpConfigured (env : SmtpEnv) : Bool :=
  truthy env.SMTP_HOST && truthy env.SMTP_USER && truthy env.SMTP_PASS
    && !(fromEmail env).isEmpty

/-- Observable side effects of a request. -/
inductive Effect
  | persistAttempt
  | notifyAttempt
  | smtpConnect
deriving DecidableEq, Repr

/-- Embedding of `_send_confirmation_email` (lines 92-134).  `smtp` is the
outcome of the SMTP session once a connection is attempted.  Returns the
Python result (`Except.error` is an uncaught exception, raised here by
`int(os.getenv("SMTP_PORT", "587"))` on line 97 when the value is not an
integer literal) together with the effects performed. -/
def sendConfirmationEmail (env : SmtpEnv) (_payload : ContactSubmission)
    (smtp : Except String Unit) : Except String EmailResult × List Effect :=
  match pyInt (env.SMTP_PORT.getD "587") with
  | none =>
      (.error ("invalid literal for int() with base 10: "
        ++ env.SMTP_PORT.getD "587"), [])
  | some _port =>
      if smtpConfigured env then
        match smtp with
        | .ok () => (.ok { sent := true, reason := none }, [.smtpConnect])
        | .error e =>
            (.ok { sent := false, reason := some (strSlice e 120) }, [.smtpConnect])
      else
        (.ok { sent := false, reason := some "SMTP not configured" }, [])

/-- The success body returned by `submit_contact` (lines 84-89). -/
structure ContactResponse where
  ok : Bool
  id : Option String
  email : EmailResult
  message : String
deriving DecidableEq, Repr

/-- An HTTP-level outcome of `POST /api/contact`: the 422 validation error
or the 200 success body. -/
inductive HttpResponse
  | clientError (violations : List Violation)
  | success (r : ContactResponse)
deriving DecidableEq, Repr

/-- The fixed acknowledgment string of line 88. -/
def ackMessage : String :=
  "Thanks. We’ve received your details and will be in touch shortly."

/-- The `POST /api/contact` request flow: FastAPI/pydantic validation, then
`submit_contact` (src/main.py lines 72-89).  `persist` is the outcome of
`create_document` (an id, or the message of the exception it raised —
caught on line 78, setting `doc_id = None`).  `Except.error` in the first
component is an exception escaping the handler (a 500, not a 200-class
response). -/
def submitContact (ive : String → Bool) (raw : RawContact)
    (persist : Except String String) (env : SmtpEnv)
    (smtp : Except String Unit) : Except String HttpResponse × List Effect :=
  match validate ive raw with
  | .error vs => (.ok (.clientError vs), [])
  | .ok payload =>
      let doc_id : Option String :=
        match persist with
        | .ok i => some i
        | .error _ => none
      match sendConfirmationEmail env payload smtp with
      | (.error m, eff) => (.error m, .persistAttempt :: .notifyAttempt :: eff)
      | (.ok er, eff) =>
          (.ok (.success { ok := true, id := doc_id, email := er,
                           message := ackMessage }),
            .persistAttempt :: .notifyAttempt :: eff)

/-- The module-level database handle as seen by `/test`: `name` is `db.name`
when `hasattr(db, 'name')`, and `list_collection_names` is the outcome of
`db.list_collection_names()` (a list, or the raised exception's message). -/
structure DbHandle where
  name : Option String
  list_collection_names : Except String (List String)
deriving Repr

/-- The diagnostic object returned by `GET /test`. -/
structure TestResponse where
  backend : String
  database : String
  database_url : String
  database_name : String
  connection_status : String
  collections : List String
deriving DecidableEq, Repr

/-- Embedding of `test_database` (lines 40-69): builds the default response,
then probes the handle, the `DATABASE_URL` env var, the database name and
the collection listing, degrading fields on failure. -/
def test_database (db : Option DbHandle) (DATABASE_URL : Option String)
    (DATABASE_NAME : Option String) : TestResponse :=
  match db with
  | none =>
      { backend := "✅ Running"
        database := "⚠️ Available but not initialized"
        database_url := "❌ Not Set"
        database_name := "❌ Not Set"
        connection_status := "Not Connected"
        collections := [] }
  | some d =>
      let url := if truthy DATABASE_URL then "✅ Set" else "❌ Not Set"
      let nm :=
        match d.name with
        | some n => n
        | none => if truthy DATABASE_NAME then DATABASE_NAME.getD "" else "Unknown"
      match d.list_collection_names with
      | .ok cols =>
          { backend := "✅ Running"
            database := "✅ Connected & Working"
            database_url := url
            database_name := nm
            connection_status := "Connected"
            collections := cols.take 10 }
      | .error e =>
          { backend := "✅ Running"
            database := "⚠️ Connected but Error: " ++ strSlice e 80
            database_url := url
            database_name := nm
            connection_status := "Not Connected"
            collections := [] }

/-! Concrete fixtures used by witnesses and counterexamples. -/

/-- The valid scenario body from the spec: name "Jo". -/
def rawJo : RawContact :=
  ⟨some "Jo", some "jo@example.com", none, none, none, some "Interested in services"⟩

/-- A second valid body, used for independent concrete checks. -/
def rawSue : RawContact :=
  ⟨some "Sue", some "sue@example.com", some "123", none, none, some "Needs a consultation"⟩

/-- An invalid body: name too short and description too short. -/
def rawShort : RawContact :=
  ⟨some "A", some "a@example.com", none, none, none, some "short"⟩

/-- An email-syntax oracle that accepts everything. -/
def trueIve : String → Bool := fun _ => true

/-- No SMTP environment variables set. -/
def envEmpty : SmtpEnv := ⟨none, none, none, none, none⟩

/-- Fully configured SMTP environment with the default-looking port. -/
def envFull : SmtpEnv :=
  ⟨some "smtp.example.com", some "587", some "user", some "secret",
    some "noreply@example.com"⟩

/-- Fully configured SMTP environment except `SMTP_PORT = "abc"`. -/
def envBadPortAbc : SmtpEnv :=
  ⟨some "smtp.example.com", some "abc", some "user", some "secret", none⟩

/-- Fully configured SMTP environment except `SMTP_PORT = "5.87"`. -/
def envBadPortDot : SmtpEnv :=
  ⟨some "smtp.example.com", some "5.87", some "user", some "secret", none⟩

/-- Environment with only `SMTP_PORT` set, to the empty string. -/
def envBadPortEmpty : SmtpEnv := ⟨none, some "", none, none, none⟩

/-- Fully configured SMTP environment except `SMTP_PORT = "1e3"`. -/
def envBadPortExp : SmtpEnv :=
  ⟨some "smtp.example.com", some "1e3", some "user", some "secret", none⟩

/-- An error message longer than 120 characters. -/
def longMsg : String := (List.replicate 130 'x').asString

/-- The validated form of `rawJo`. -/
def payloadJo : ContactSubmission :=
  ⟨"Jo", "jo@example.com", none, none, none, "Interested in services"⟩

/-- A database handle whose collection listing raises. -/
def dbErr : DbHandle := ⟨some "kma", .error "connection timeout"⟩

/-! Helper lemmas shared by the claim theorems. -/

/-- Slicing yields at most `n` characters. -/
lemma strSlice_length_le (s : String) (n : Nat) : (strSlice s n).length ≤ n := by
  simp only [strSlice, String.length, List.asString, List.length_take]
  exact Nat.min_le_left _ _

/-- Unfolding of the notifier once the port string parses. -/
lemma sendConfirmationEmail_of_port (env : SmtpEnv) (payload : ContactSubmission)
    (smtp : Except String Unit) (port : Int)
    (hport : pyInt (env.SMTP_PORT.getD "587") = some port) :
    sendConfirmationEmail env payload smtp =
      if smtpConfigured env then
        match smtp with
        | .ok () => (.ok { sent := true, reason := none }, [.smtpConnect])
        | .error e =>
            (.ok { sent := false, reason := some (strSlice e 120) }, [.smtpConnect])
      else (.ok { sent := false, reason := some "SMTP not configured" }, []) := by
  unfold sendConfirmationEmail
  rw [hport]

/-- Unfolding of the handler once validation succeeds. -/
lemma submitContact_of_valid (ive : String → Bool) (raw : RawContact)
    (payload : ContactSubmission) (persist : Except String String) (env : SmtpEnv)
    (smtp : Except String Unit) (hval : validate ive raw = .ok payload) :
    submitContact ive raw persist env smtp =
      match sendConfirmationEmail env payload smtp with
      | (.error m, eff) => (.error m, .persistAttempt :: .notifyAttempt :: eff)
      | (.ok er, eff) =>
          (.ok (.success
            { ok := true
              id := match persist with | .ok i => some i | .error _ => none
              email := er
              message := ackMessage }),
            .persistAttempt :: .notifyAttempt :: eff) := by
  unfold submitContact
  rw [hval]

/-- Unfolding of the diagnostic endpoint when the collection listing raises. -/
lemma test_database_of_list_error (d : DbHandle) (url nm : Option String)
    (e : String) (hlist : d.list_collection_names = .error e) :
    test_database (some d) url nm =
      { backend := "✅ Running"
        database := "⚠️ Connected but Error: " ++ strSlice e 80
        database_url := if truthy url then "✅ Set" else "❌ Not Set"
        database_name :=
          match d.name with
          | some n => n
          | none => if truthy nm then nm.getD "" else "Unknown"
        connection_status := "Not Connected"
        collections := [] } := by
  unfold test_database
  dsimp only
  rw [hlist]


lemma mem_fieldViolations (ive : String → Bool) (raw : RawContact) :
    (Violation.nameMissing ∈ fieldViolations ive raw ↔ raw.name = none)
    ∧ (Violation.nameTooShort ∈ fieldViolations ive raw ↔
        ∃ n, raw.name = some n ∧ n.length < 2)
    ∧ (Violation.nameTooLong ∈ fieldViolations ive raw ↔
        ∃ n, raw.name = some n ∧ n.length > 120)
    ∧ (Violation.emailMissing ∈ fieldViolations ive raw ↔ raw.email = none)
    ∧ (Violation.emailInvalid ∈ fieldViolations ive raw ↔
        ∃ e, raw.email = some e ∧ ive e = false)
    ∧ (Violation.descriptionMissing ∈ fieldViolations ive raw ↔ raw.description = none)
    ∧ (Violation.descriptionTooShort ∈ fieldViolations ive raw ↔
        ∃ d, raw.description = some d ∧ d.length < 10) := by
  rcases raw with ⟨name, email, phone, business, budget, desc⟩
  cases name <;> cases email <;> cases desc <;> simp [fieldViolations]

lemma validate_error_of_violations (ive : String → Bool) (raw : RawContact)
    (h : fieldViolations ive raw ≠ []) :
    validate ive raw = .error (fieldViolations ive raw) := by
  unfold validate
  cases hfv : fieldViolations ive raw with
  | nil => exact absurd hfv h
  | cons v vs => cases raw.name <;> cases raw.email <;> cases raw.description <;> rfl

/-- C1 (amended): for every `POST /api/contact` payload that passes validation,
and provided the `SMTP_PORT` environment variable is unset or parses as an
integer literal, every failure of the persistence step and of the notification
transport or authentication is caught, and the handler returns a success-class
response rather than propagating a fault.  The proviso is necessary: a
non-integer `SMTP_PORT` makes `int()` on line 97 raise an uncaught ValueError
before the try block, a notifier configuration error that reaches the
caller. -/
theorem submit_contact_absorbs_side_effect_failures (ive : String → Bool)
    (raw : RawContact) (payload : ContactSubmission) (persist : Except String String)
    (env : SmtpEnv) (smtp : Except String Unit) (port : Int)
    (hval : validate ive raw = .ok payload)
    (hport : pyInt (env.SMTP_PORT.getD "587") = some port) :
    ∃ r, (submitContact ive raw persist env smtp).1 = .ok (.success r) := by
  rw [submitContact_of_valid ive raw payload persist env smtp hval,
    sendConfirmationEmail_of_port env payload smtp port hport]
  by_cases hc : smtpConfigured env
  · simp only [if_pos hc]
    cases smtp with
    | ok u => cases u; exact ⟨_, rfl⟩
    | error e => exact ⟨_, rfl⟩
  · simp only [if_neg hc]
    exact ⟨_, rfl⟩

theorem submit_contact_absorbs_side_effect_failures_witness :
    validate trueIve rawJo = .ok payloadJo
    ∧ (∃ r, (submitContact trueIve rawJo (.error "db down") envEmpty (.ok ())).1
        = .ok (.success r)) :=
  ⟨rfl, submit_contact_absorbs_side_effect_failures trueIve rawJo payloadJo
    (.error "db down") envEmpty (.ok ()) 587 rfl (by decide)⟩

/-- C1 counterexample: the claim as stated is false.  A payload that passes
validation, submitted with `SMTP_PORT = "abc"`, makes the handler raise an
uncaught exception instead of reporting the failure in a success-class
response. -/
theorem submit_contact_port_error_uncaught :
    validate trueIve rawJo = .ok payloadJo
    ∧ (submitContact trueIve rawJo (.ok "abc123") envBadPortAbc (.ok ())).1
        = .error "invalid literal for int() with base 10: abc" := by
  constructor <;> rfl


/-- C2: for every submission whose name has length < 2 or > 120, or whose
description has length < 10, or whose email is rejected by the syntax check,
or that omits a required field, `POST /api/contact` returns a client error
whose violation list enumerates exactly the violated constraints, and the
effect trace is empty: neither the persistence write nor the notification
attempt occurs. -/
theorem submit_contact_rejects_invalid (ive : String → Bool) (raw : RawContact)
    (persist : Except String String) (env : SmtpEnv) (smtp : Except String Unit)
    (H : (∃ n, raw.name = some n ∧ (n.length < 2 ∨ n.length > 120))
      ∨ (∃ d, raw.description = some d ∧ d.length < 10)
      ∨ (∃ e, raw.email = some e ∧ ive e = false)
      ∨ raw.name = none ∨ raw.email = none ∨ raw.description = none) :
    submitContact ive raw persist env smtp
      = (.ok (.clientError (fieldViolations ive raw)), [])
    ∧ fieldViolations ive raw ≠ []
    ∧ (Violation.nameMissing ∈ fieldViolations ive raw ↔ raw.name = none)
    ∧ (Violation.nameTooShort ∈ fieldViolations ive raw ↔
        ∃ n, raw.name = some n ∧ n.length < 2)
    ∧ (Violation.nameTooLong ∈ fieldViolations ive raw ↔
        ∃ n, raw.name = some n ∧ n.length > 120)
    ∧ (Violation.emailMissing ∈ fieldViolations ive raw ↔ raw.email = none)
    ∧ (Violation.emailInvalid ∈ fieldViolations ive raw ↔
        ∃ e, raw.email = some e ∧ ive e = false)
    ∧ (Violation.descriptionMissing ∈ fieldViolations ive raw ↔ raw.description = none)
    ∧ (Violation.descriptionTooShort ∈ fieldViolations ive raw ↔
        ∃ d, raw.description = some d ∧ d.length < 10) := by
  obtain ⟨h1, h2, h3, h4, h5, h6, h7⟩ := mem_fieldViolations ive raw
  have hne : fieldViolations ive raw ≠ [] := by
    rcases H with ⟨n, hn, hlen | hlen⟩ | ⟨d, hd, hlen⟩ | ⟨e, he, hive⟩ | h | h | h
    · exact List.ne_nil_of_mem (h2.mpr ⟨n, hn, hlen⟩)
    · exact List.ne_nil_of_mem (h3.mpr ⟨n, hn, hlen⟩)
    · exact List.ne_nil_of_mem (h7.mpr ⟨d, hd, hlen⟩)
    · exact List.ne_nil_of_mem (h5.mpr ⟨e, he, hive⟩)
    · exact List.ne_nil_of_mem (h1.mpr h)
    · exact List.ne_nil_of_mem (h4.mpr h)
    · exact List.ne_nil_of_mem (h6.mpr h)
  refine ⟨?_, hne, h1, h2, h3, h4, h5, h6, h7⟩
  unfold submitContact
  rw [validate_error_of_violations ive raw hne]

theorem submit_contact_rejects_invalid_witness :
    (∃ n, rawShort.name = some n ∧ (n.length < 2 ∨ n.length > 120))
    ∧ submitContact trueIve rawShort (.ok "x") envFull (.ok ())
        = (.ok (.clientError [.nameTooShort, .descriptionTooShort]), []) :=
  ⟨⟨"A", rfl, Or.inl (by decide)⟩,
    ((submit_contact_rejects_invalid trueIve rawShort (.ok "x") envFull (.ok ())
      (Or.inl ⟨"A", rfl, Or.inl (by decide)⟩)).1).trans rfl⟩

/-- C3 (amended): for every valid submission, and provided `SMTP_PORT` is
unset or parses as an integer literal, when the persistence step fails for any
reason the response still has `ok = true` and `id = null`, and the
notification step is still attempted.  Without the proviso the claim is false:
a malformed `SMTP_PORT` makes the notifier raise, so no response with an `ok`
field is produced. -/
theorem persist_failure_keeps_ok_true_id_null (ive : String → Bool)
    (raw : RawContact) (payload : ContactSubmission) (emsg : String)
    (env : SmtpEnv) (smtp : Except String Unit) (port : Int)
    (hval : validate ive raw = .ok payload)
    (hport : pyInt (env.SMTP_PORT.getD "587") = some port) :
    ∃ er eff, submitContact ive raw (.error emsg) env smtp
      = (.ok (.success { ok := true, id := none, email := er, message := ackMessage }),
          .persistAttempt :: .notifyAttempt :: eff) := by
  rw [submitContact_of_valid ive raw payload (.error emsg) env smtp hval,
    sendConfirmationEmail_of_port env payload smtp port hport]
  by_cases hc : smtpConfigured env
  · simp only [if_pos hc]
    cases smtp with
    | ok u => cases u; exact ⟨_, _, rfl⟩
    | error e => exact ⟨_, _, rfl⟩
  · simp only [if_neg hc]
    exact ⟨_, _, rfl⟩

theorem persist_failure_keeps_ok_true_id_null_witness :
    validate trueIve rawJo = .ok payloadJo
    ∧ ∃ er eff, submitContact trueIve rawJo (.error "database not configured") envEmpty (.ok ())
      = (.ok (.success { ok := true, id := none, email := er, message := ackMessage }),
          .persistAttempt :: .notifyAttempt :: eff) :=
  ⟨rfl, persist_failure_keeps_ok_true_id_null trueIve rawJo payloadJo
    "database not configured" envEmpty (.ok ()) 587 rfl (by decide)⟩

/-- C3 counterexample: the claim as stated is false.  For a valid submission
whose persistence step fails, with `SMTP_PORT = "5.87"` the handler raises an
uncaught exception, so the response does not have `ok == true` and
`id == null`. -/
theorem persist_failure_port_error_no_response :
    validate trueIve rawSue = .ok ⟨"Sue", "sue@example.com", some "123", none, none, "Needs a consultation"⟩
    ∧ (submitContact trueIve rawSue (.error "db down") envBadPortDot (.ok ())).1
        = .error "invalid literal for int() with base 10: 5.87" := by
  constructor <;> rfl

/-- C4 (amended): for every valid submission, provided `SMTP_PORT` is unset
or parses as an integer literal, when the configuration guard fails (any of
host, user, credential, or the derived from-address missing or empty) the
notifier returns `{sent: false, reason: "SMTP not configured"}` — the code's
literal reason string, not `"not configured"` as the claim states — without
attempting a network connection (no connect effect), and the overall request
still succeeds with `ok = true`. -/
theorem notifier_unconfigured_noop (ive : String → Bool) (raw : RawContact)
    (payload : ContactSubmission) (persist : Except String String) (env : SmtpEnv)
    (smtp : Except String Unit) (port : Int)
    (hval : validate ive raw = .ok payload)
    (hport : pyInt (env.SMTP_PORT.getD "587") = some port)
    (hmiss : smtpConfigured env = false) :
    sendConfirmationEmail env payload smtp
      = (.ok { sent := false, reason := some "SMTP not configured" }, [])
    ∧ ∃ doc_id, submitContact ive raw persist env smtp
      = (.ok (.success
          { ok := true
            id := doc_id
            email := { sent := false, reason := some "SMTP not configured" }
            message := ackMessage }), [.persistAttempt, .notifyAttempt]) := by
  have hsend : sendConfirmationEmail env payload smtp
      = (.ok { sent := false, reason := some "SMTP not configured" }, []) := by
    rw [sendConfirmationEmail_of_port env payload smtp port hport, if_neg (by simp [hmiss])]
  refine ⟨hsend, ?_⟩
  rw [submitContact_of_valid ive raw payload persist env smtp hval, hsend]
  exact ⟨_, rfl⟩

theorem notifier_unconfigured_noop_witness :
    smtpConfigured envEmpty = false
    ∧ sendConfirmationEmail envEmpty payloadJo (.ok ())
        = (.ok { sent := false, reason := some "SMTP not configured" }, [])
    ∧ ∃ doc_id, submitContact trueIve rawJo (.ok "abc123") envEmpty (.ok ())
      = (.ok (.success
          { ok := true
            id := doc_id
            email := { sent := false, reason := some "SMTP not configured" }
            message := ackMessage }), [.persistAttempt, .notifyAttempt]) :=
  ⟨by decide, notifier_unconfigured_noop trueIve rawJo payloadJo (.ok "abc123")
    envEmpty (.ok ()) 587 rfl (by decide) (by decide)⟩

/-- C4 counterexample: the claim as stated is false.  With no SMTP variables
set, the notifier's reason string is `"SMTP not configured"`, which is not the
string `"not configured"` stated by the claim. -/
theorem notifier_unconfigured_reason_literal :
    sendConfirmationEmail envEmpty payloadJo (.ok ())
      = (.ok { sent := false, reason := some "SMTP not configured" }, [])
    ∧ some "SMTP not configured" ≠ some "not configured" :=
  ⟨rfl, by decide⟩


lemma submit_success_fields (ive : String → Bool) (raw : RawContact)
    (payload : ContactSubmission) (persist : Except String String) (env : SmtpEnv)
    (smtp : Except String Unit) (port : Int)
    (hval : validate ive raw = .ok payload)
    (hport : pyInt (env.SMTP_PORT.getD "587") = some port) :
    ∃ r, (submitContact ive raw persist env smtp).1 = .ok (.success r)
      ∧ r.ok = true ∧ r.message = ackMessage := by
  rw [submitContact_of_valid ive raw payload persist env smtp hval,
    sendConfirmationEmail_of_port env payload smtp port hport]
  by_cases hc : smtpConfigured env
  · simp only [if_pos hc]
    cases smtp with
    | ok u => cases u; exact ⟨_, rfl, rfl, rfl⟩
    | error e => exact ⟨_, rfl, rfl, rfl⟩
  · simp only [if_neg hc]
    exact ⟨_, rfl, rfl, rfl⟩

lemma test_database_of_list_ok (d : DbHandle) (url nm : Option String)
    (cols : List String) (hlist : d.list_collection_names = .ok cols) :
    test_database (some d) url nm =
      { backend := "✅ Running"
        database := "✅ Connected & Working"
        database_url := if truthy url then "✅ Set" else "❌ Not Set"
        database_name :=
          match d.name with
          | some n => n
          | none => if truthy nm then nm.getD "" else "Unknown"
        connection_status := "Connected"
        collections := cols.take 10 } := by
  unfold test_database
  dsimp only
  rw [hlist]

/-- C5 (amended): for every submission that passes validation, and provided
`SMTP_PORT` is unset or parses as an integer literal, the response contains
exactly the fixed acknowledgment string, regardless of the persistence and
notification outcomes.  Without the proviso the claim is false: a malformed
`SMTP_PORT` aborts the request before any response body is built. -/
theorem ack_message_fixed (ive : String → Bool) (raw : RawContact)
    (payload : ContactSubmission) (persist : Except String String) (env : SmtpEnv)
    (smtp : Except String Unit) (port : Int)
    (hval : validate ive raw = .ok payload)
    (hport : pyInt (env.SMTP_PORT.getD "587") = some port) :
    ∃ r, (submitContact ive raw persist env smtp).1 = .ok (.success r)
      ∧ r.message = "Thanks. We’ve received your details and will be in touch shortly." := by
  obtain ⟨r, h, -, hm⟩ :=
    submit_success_fields ive raw payload persist env smtp port hval hport
  exact ⟨r, h, hm⟩

theorem ack_message_fixed_witness :
    validate trueIve rawJo = .ok payloadJo
    ∧ ∃ r, (submitContact trueIve rawJo (.ok "abc123") envFull (.error "connection refused")).1
        = .ok (.success r)
      ∧ r.message = "Thanks. We’ve received your details and will be in touch shortly." :=
  ⟨rfl, ack_message_fixed trueIve rawJo payloadJo (.ok "abc123") envFull
    (.error "connection refused") 587 rfl (by decide)⟩

/-- C5 counterexample: the claim as stated is false.  For a submission that
passes validation, with `SMTP_PORT = ""` the handler raises an uncaught
exception, so no response containing the acknowledgment message is
returned. -/
theorem ack_message_missing_on_port_error :
    validate trueIve rawJo = .ok payloadJo
    ∧ (submitContact trueIve rawJo (.ok "abc123") envBadPortEmpty (.ok ())).1
        = .error "invalid literal for int() with base 10: " := by
  constructor <;> rfl

/-- C6: for every `GET /test` request, the `collections` field of the
diagnostic response holds at most 10 collection names; and when the
collection-listing probe raises, the endpoint still returns the full
diagnostic object, with the connectivity field degraded to an error string
(the listing exception's message, truncated to 80 characters) and every other
field keeping its probed or initial value. -/
theorem test_collections_bounded_and_probe_degrades (db : Option DbHandle)
    (url nm : Option String) :
    (test_database db url nm).collections.length ≤ 10
    ∧ ∀ d e, db = some d → d.list_collection_names = .error e →
        test_database db url nm =
          { backend := "✅ Running"
            database := "⚠️ Connected but Error: " ++ strSlice e 80
            database_url := if truthy url then "✅ Set" else "❌ Not Set"
            database_name :=
              match d.name with
              | some n => n
              | none => if truthy nm then nm.getD "" else "Unknown"
            connection_status := "Not Connected"
            collections := [] } := by
  constructor
  · cases db with
    | none => simp [test_database]
    | some d =>
      cases hl : d.list_collection_names with
      | ok cols =>
        rw [test_database_of_list_ok d url nm cols hl]
        simp only [List.length_take]
        exact Nat.min_le_left 10 cols.length
      | error e =>
        rw [test_database_of_list_error d url nm e hl]
        simp
  · intro d e hdb hlist
    subst hdb
    exact test_database_of_list_error d url nm e hlist

theorem test_collections_bounded_and_probe_degrades_witness :
    (test_database (some dbErr) (some "mongodb://h") none).collections.length ≤ 10
    ∧ test_database (some dbErr) (some "mongodb://h") none =
        { backend := "✅ Running"
          database := "⚠️ Connected but Error: connection timeout"
          database_url := "✅ Set"
          database_name := "kma"
          connection_status := "Not Connected"
          collections := [] } :=
  ⟨(test_collections_bounded_and_probe_degrades (some dbErr) (some "mongodb://h") none).1,
    ((test_collections_bounded_and_probe_degrades (some dbErr) (some "mongodb://h") none).2
      dbErr "connection timeout" rfl rfl).trans (by decide)⟩

/-- C7: whenever the SMTP transport or authentication fails, the reason
string embedded in the `{sent: false, reason}` result is the exception
message truncated to at most 120 characters, however long the underlying
message is. -/
theorem notifier_reason_truncated (env : SmtpEnv) (payload : ContactSubmission)
    (e : String) (port : Int)
    (hport : pyInt (env.SMTP_PORT.getD "587") = some port)
    (hconf : smtpConfigured env = true) :
    sendConfirmationEmail env payload (.error e)
      = (.ok { sent := false, reason := some (strSlice e 120) }, [.smtpConnect])
    ∧ (strSlice e 120).length ≤ 120 := by
  refine ⟨?_, strSlice_length_le e 120⟩
  rw [sendConfirmationEmail_of_port env payload (.error e) port hport, if_pos hconf]

theorem notifier_reason_truncated_witness :
    smtpConfigured envFull = true
    ∧ sendConfirmationEmail envFull payloadJo (.error longMsg)
        = (.ok { sent := false, reason := some (strSlice longMsg 120) }, [.smtpConnect])
    ∧ (strSlice longMsg 120).length ≤ 120 :=
  ⟨by decide, notifier_reason_truncated envFull payloadJo longMsg 587 (by decide) (by decide)⟩

/-- C8: whenever the module-level database handle is `None`, `GET /test`
reports `database_url` and `database_name` as not set, whatever the values of
the `DATABASE_URL` and `DATABASE_NAME` environment variables: the
environment-variable probes run only inside the `db is not None` branch. -/
theorem test_no_handle_env_probes_skipped (url nm : Option String) :
    test_database none url nm =
      { backend := "✅ Running"
        database := "⚠️ Available but not initialized"
        database_url := "❌ Not Set"
        database_name := "❌ Not Set"
        connection_status := "Not Connected"
        collections := [] } := rfl

/-- C9: whenever the database handle exists but listing collection names
raises, the `GET /test` response places the error string in the `database`
field only, while `connection_status` remains `"Not Connected"` and
`collections` remains the empty sequence, exactly as initialized. -/
theorem test_list_error_frame (d : DbHandle) (url nm : Option String) (e : String)
    (hlist : d.list_collection_names = .error e) :
    test_database (some d) url nm =
      { backend := "✅ Running"
        database := "⚠️ Connected but Error: " ++ strSlice e 80
        database_url := if truthy url then "✅ Set" else "❌ Not Set"
        database_name :=
          match d.name with
          | some n => n
          | none => if truthy nm then nm.getD "" else "Unknown"
        connection_status := "Not Connected"
        collections := [] } :=
  test_database_of_list_error d url nm e hlist

theorem test_list_error_frame_witness :
    dbErr.list_collection_names = .error "connection timeout"
    ∧ test_database (some dbErr) none (some "kmadb") =
        { backend := "✅ Running"
          database := "⚠️ Connected but Error: connection timeout"
          database_url := "❌ Not Set"
          database_name := "kma"
          connection_status := "Not Connected"
          collections := [] } :=
  ⟨rfl, (test_list_error_frame dbErr none (some "kmadb") "connection timeout" rfl).trans
    (by decide)⟩

/-- C10 (amended): for every payload that passes validation, and provided
`SMTP_PORT` is unset or parses as an integer literal in both runs, the `ok`
and `message` fields of the response are identical across any two runs over
arbitrary persistence outcomes, SMTP environments and SMTP session outcomes:
`ok` is the constant `true` and `message` the constant acknowledgment string.
Without the proviso the claim is false: a run with a malformed `SMTP_PORT`
produces no success response at all. -/
theorem ok_message_infrastructure_independent (ive : String → Bool) (raw : RawContact)
    (payload : ContactSubmission) (persist₁ persist₂ : Except String String)
    (env₁ env₂ : SmtpEnv) (smtp₁ smtp₂ : Except String Unit) (port₁ port₂ : Int)
    (hval : validate ive raw = .ok payload)
    (hport₁ : pyInt (env₁.SMTP_PORT.getD "587") = some port₁)
    (hport₂ : pyInt (env₂.SMTP_PORT.getD "587") = some port₂) :
    ∃ r₁ r₂, (submitContact ive raw persist₁ env₁ smtp₁).1 = .ok (.success r₁)
      ∧ (submitContact ive raw persist₂ env₂ smtp₂).1 = .ok (.success r₂)
      ∧ r₁.ok = r₂.ok ∧ r₁.message = r₂.message
      ∧ r₁.ok = true ∧ r₁.message = ackMessage := by
  obtain ⟨r₁, h₁, hok₁, hm₁⟩ :=
    submit_success_fields ive raw payload persist₁ env₁ smtp₁ port₁ hval hport₁
  obtain ⟨r₂, h₂, hok₂, hm₂⟩ :=
    submit_success_fields ive raw payload persist₂ env₂ smtp₂ port₂ hval hport₂
  exact ⟨r₁, r₂, h₁, h₂, hok₁.trans hok₂.symm, hm₁.trans hm₂.symm, hok₁, hm₁⟩

theorem ok_message_infrastructure_independent_witness :
    validate trueIve rawJo = .ok payloadJo
    ∧ ∃ r₁ r₂,
      (submitContact trueIve rawJo (.error "db down") envEmpty (.ok ())).1
        = .ok (.success r₁)
      ∧ (submitContact trueIve rawJo (.ok "id9") envFull (.error "auth failed")).1
        = .ok (.success r₂)
      ∧ r₁.ok = r₂.ok ∧ r₁.message = r₂.message
      ∧ r₁.ok = true ∧ r₁.message = ackMessage :=
  ⟨rfl, ok_message_infrastructure_independent trueIve rawJo payloadJo
    (.error "db down") (.ok "id9") envEmpty envFull (.ok ()) (.error "auth failed")
    587 587 rfl (by decide) (by decide)⟩

/-- C10 counterexample: the claim as stated is false.  Two runs of the same
validated payload, one with no SMTP configuration and one with
`SMTP_PORT = "1e3"`: the first returns `ok`/`message` fields, the second
raises an uncaught exception and returns neither. -/
theorem ok_message_differ_on_port_error :
    validate trueIve rawJo = .ok payloadJo
    ∧ (submitContact trueIve rawJo (.ok "abc123") envEmpty (.ok ())).1
        = .ok (.success
            { ok := true
              id := some "abc123"
              email := { sent := false, reason := some "SMTP not configured" }
              message := ackMessage })
    ∧ (submitContact trueIve rawJo (.ok "abc123") envBadPortExp (.ok ())).1
        = .error "invalid literal for int() with base 10: 1e3" :=
  ⟨rfl, rfl, rfl⟩

end KMA
